import Mathlib

/-!
Shallow embedding of the CSmart-Finetuning serving layer (src/app.py,
src/test_local.py).  Text is modelled as `List Char`; Python's
`str.split(sep, 1)` on the first occurrence of `sep` is modelled by
`splitFirst`, Python's `str.strip()` by `pyStrip`, and the answer-extraction
block of the `/predict` handler (app.py lines 196-207) by `extractAnswer`.
-/

/-- Python whitespace characters stripped by `str.strip()` (ASCII range). -/
def isPySpace (c : Char) : Bool :=
  c == ' ' || c == '\t' || c == '\n' || c == '\r' || c == '\x0b' || c == '\x0c'

/-- Python `str.strip()`: drop whitespace from both ends. -/
def pyStrip (l : List Char) : List Char :=
  ((l.dropWhile isPySpace).reverse.dropWhile isPySpace).reverse

/-- `startsWith pat l` is true when `pat` is an initial segment of `l`
(Python's `str.startswith`, used to locate occurrences of a separator). -/
def startsWith : List Char → List Char → Bool
  | [], _ => true
  | _ :: _, [] => false
  | p :: ps, c :: cs => p == c && startsWith ps cs

/-- Python `s.split(sep, 1)` for nonempty `sep`: `some (before, after)` split
at the first occurrence of `sep` when `sep` occurs in `s`, `none` otherwise
(so `(splitFirst sep s).isSome` models Python's `sep in s`). -/
def splitFirst (sep : List Char) : List Char → Option (List Char × List Char)
  | [] => none
  | c :: cs =>
    if startsWith sep (c :: cs) then
      some ([], (c :: cs).drop sep.length)
    else
      match splitFirst sep cs with
      | some (a, b) => some (c :: a, b)
      | none => none

/-- The fixed answer marker `"답변:"` of the prompt template (app.py line 172). -/
def ansMarker : List Char := "답변:".toList

/-- The fixed question marker `"질문:"` of the prompt template. -/
def qMarker : List Char := "질문:".toList

/-- The markup guard character `"<"` (app.py line 206). -/
def ltMarker : List Char := "<".toList

/-- Second extraction step (app.py lines 202-203): if the question marker
occurs, keep the stripped content before its first occurrence. -/
def truncAtQuestion (a : List Char) : List Char :=
  match splitFirst qMarker a with
  | some (x, _) => pyStrip x
  | none => a

/-- Third extraction step (app.py lines 206-207): if `<` occurs, keep the
stripped content before its first occurrence. -/
def truncAtLt (a : List Char) : List Char :=
  match splitFirst ltMarker a with
  | some (x, _) => pyStrip x
  | none => a

/-- The answer extractor of the `/predict` handler (app.py lines 196-207):
if the answer marker occurs, take the stripped content after its first
occurrence, then truncate at the question marker, then at `<`; otherwise
return the full text unchanged. -/
def extractAnswer (full : List Char) : List Char :=
  match splitFirst ansMarker full with
  | some (_, tail) => truncAtLt (truncAtQuestion (pyStrip tail))
  | none => full

/-!
Server-side embedding.  The global state of app.py (lines 20-23) is the pair
of optional handles `model`/`tokenizer` plus the device string; the external
tokenize/generate/decode pipeline is an oracle `GenCall → Except String (List Char)`
(`Except.error` models a raised exception carrying its message).  `predict`
additionally returns the list of oracle invocations it performed, so that
"the runtime is never invoked" is expressible as an empty call list.
-/

/-- The fixed model path constant (app.py line 20). -/
def MODEL_PATH : String := "./gemma2-finetuned"

/-- Process-wide globals of app.py (lines 21-23): optional model handle,
optional tokenizer handle, device string. -/
structure ServerState where
  model : Option Nat
  tokenizer : Option Nat
  device : String
deriving DecidableEq

/-- The state at module load (app.py lines 21-23): nothing loaded, device "cpu". -/
def initialState : ServerState :=
  { model := none, tokenizer := none, device := "cpu" }

/-- Outcome of the external loads performed by `load_model` (app.py 60-117):
either some load before the global `model` assignment at line 99 raises, or
the tokenizer load at line 106 raises after `model` was already assigned, or
everything succeeds. -/
inductive LoadOutcome where
  | failBeforeModel (msg : String)
  | failAfterModel (m : Nat) (msg : String)
  | loadSuccess (m t : Nat)

/-- The startup hook `load_model` (app.py lines 60-117): assigns the global
`model` (line 99) before loading the tokenizer (line 106); any exception is
re-raised (second component `true`). -/
def load_model (st : ServerState) : LoadOutcome → ServerState × Bool
  | .failBeforeModel _ => (st, true)
  | .failAfterModel m _ => ({ st with model := some m }, true)
  | .loadSuccess m t => ({ st with model := some m, tokenizer := some t }, false)

/-- The fully-defaulted request model `QuestionRequest` (app.py lines 28-34),
after pydantic has filled in defaults.  Float literals are embedded as exact
rationals. -/
structure QuestionRequest where
  question : String
  max_tokens : Int
  temperature : ℚ
  top_k : Int
  top_p : ℚ
  repetition_penalty : ℚ
deriving DecidableEq

/-- A client JSON body for `/predict`: `question` required, every other
field optional (app.py lines 28-34). -/
structure RawRequest where
  question : String
  max_tokens : Option Int := none
  temperature : Option ℚ := none
  top_k : Option Int := none
  top_p : Option ℚ := none
  repetition_penalty : Option ℚ := none
deriving DecidableEq

/-- Pydantic defaulting of `QuestionRequest` (app.py lines 28-34): each
omitted field takes its declared default. -/
def buildRequest (r : RawRequest) : QuestionRequest :=
  { question := r.question
    max_tokens := r.max_tokens.getD 120
    temperature := r.temperature.getD 0.3
    top_k := r.top_k.getD 40
    top_p := r.top_p.getD 0.8
    repetition_penalty := r.repetition_penalty.getD 1.8 }

/-- The argument bundle passed to `model.generate` (app.py lines 180-191);
`do_sample` and `no_repeat_ngram_size` are the fixed constants of the call. -/
structure GenCall where
  prompt : String
  max_new_tokens : Int
  temperature : ℚ
  top_k : Int
  top_p : ℚ
  repetition_penalty : ℚ
  do_sample : Bool
  no_repeat_ngram_size : Int
deriving DecidableEq

/-- The prompt template (app.py line 172). -/
def mkPrompt (q : String) : String := "질문: " ++ q ++ "\n답변:"

/-- The generate call built from a request (app.py lines 172, 180-191). -/
def genCallOf (req : QuestionRequest) : GenCall :=
  { prompt := mkPrompt req.question
    max_new_tokens := req.max_tokens
    temperature := req.temperature
    top_k := req.top_k
    top_p := req.top_p
    repetition_penalty := req.repetition_penalty
    do_sample := true
    no_repeat_ngram_size := 4 }

/-- The response model `AnswerResponse` (app.py lines 45-50). -/
structure AnswerResponse where
  question : String
  answer : List Char
  full_output : List Char
  model_path : String
  device : String
deriving DecidableEq

/-- Result of a `/predict` request: a complete `AnswerResponse`, or an
`HTTPException` with status code and detail message. -/
inductive PredictOutcome where
  | ok (resp : AnswerResponse)
  | httpError (status : Nat) (detail : String)
deriving DecidableEq

/-- The response model `HealthResponse` (app.py lines 52-55). -/
structure HealthResponse where
  status : String
  model_loaded : Bool
  device : String
deriving DecidableEq

/-- The `/health` handler (app.py lines 146-153): a pure projection of the
global state, keyed only on `model` being non-None. -/
def health_check (st : ServerState) : HealthResponse :=
  { status := if st.model.isSome then "healthy" else "model_not_loaded"
    model_loaded := st.model.isSome
    device := st.device }

/-- The readiness condition checked by `/predict` (app.py line 167):
both `model` and `tokenizer` must be non-None. -/
def predictReady (st : ServerState) : Bool :=
  !(st.model.isNone || st.tokenizer.isNone)

/-- The `/predict` handler (app.py lines 155-218).  `runtime` is the external
tokenize/generate/decode pipeline; the second component lists the calls made
to it.  If model or tokenizer is None the handler raises 503 without touching
the runtime; otherwise it invokes the runtime once and either returns a
complete `AnswerResponse` or converts the raised exception into a 500 whose
detail carries the exception message (line 218). -/
def predict (st : ServerState) (runtime : GenCall → Except String (List Char))
    (req : QuestionRequest) : PredictOutcome × List GenCall :=
  if st.model.isNone || st.tokenizer.isNone then
    (.httpError 503 "모델이 로드되지 않았습니다", [])
  else
    match runtime (genCallOf req) with
    | .ok full =>
        (.ok { question := req.question, answer := extractAnswer full,
               full_output := full, model_path := MODEL_PATH,
               device := st.device }, [genCallOf req])
    | .error e =>
        (.httpError 500 ("답변 생성 중 오류 발생: " ++ e), [genCallOf req])

namespace TestLocal

/-!
The duplicate extraction block of `ask_question` in src/test_local.py
(lines 82-93), embedded separately so that its agreement with app.py's copy
can be stated.
-/

/-- The answer marker literal of test_local.py (lines 57, 84). -/
def ansMarker : List Char := "답변:".toList

/-- The question marker literal of test_local.py (line 88). -/
def qMarker : List Char := "질문:".toList

/-- The markup guard literal of test_local.py (line 92). -/
def ltMarker : List Char := "<".toList

/-- test_local.py lines 88-89. -/
def truncAtQuestion (a : List Char) : List Char :=
  match splitFirst qMarker a with
  | some (x, _) => pyStrip x
  | none => a

/-- test_local.py lines 92-93. -/
def truncAtLt (a : List Char) : List Char :=
  match splitFirst ltMarker a with
  | some (x, _) => pyStrip x
  | none => a

/-- The extraction block of `ask_question` (test_local.py lines 82-93). -/
def extractAnswer (full : List Char) : List Char :=
  match splitFirst ansMarker full with
  | some (_, tail) => truncAtLt (truncAtQuestion (pyStrip tail))
  | none => full

end TestLocal

/-!
Helper lemmas about `startsWith`, `splitFirst` and `pyStrip`.
-/

/-- `startsWith` soundness: a successful prefix test decomposes the list. -/
theorem startsWith_eq (p : List Char) :
    ∀ l, startsWith p l = true → l = p ++ l.drop p.length := by
  induction p with
  | nil => intro l _; simp
  | cons p ps ih =>
    intro l h
    cases l with
    | nil => simp [startsWith] at h
    | cons c cs =>
      simp only [startsWith, Bool.and_eq_true, beq_iff_eq] at h
      obtain ⟨hpc, h2⟩ := h
      subst hpc
      simpa using congrArg (List.cons p) (ih cs h2)

/-- `splitFirst` soundness: a successful split decomposes the list around the
separator. -/
theorem splitFirst_eq_append (sep : List Char) :
    ∀ l a b, splitFirst sep l = some (a, b) → l = a ++ sep ++ b := by
  intro l
  induction l with
  | nil => intro a b h; simp [splitFirst] at h
  | cons c cs ih =>
    intro a b h
    by_cases hs : startsWith sep (c :: cs) = true
    · rw [splitFirst, if_pos hs] at h
      simp only [Option.some.injEq, Prod.mk.injEq] at h
      obtain ⟨ha, hb⟩ := h
      subst ha; subst hb
      simpa using startsWith_eq sep (c :: cs) hs
    · rw [splitFirst, if_neg hs] at h
      cases hrec : splitFirst sep cs with
      | none => rw [hrec] at h; simp at h
      | some p =>
        obtain ⟨a', b'⟩ := p
        rw [hrec] at h
        simp only [Option.some.injEq, Prod.mk.injEq] at h
        obtain ⟨ha, hb⟩ := h
        subst ha; subst hb
        have := ih a' b' hrec
        simp [this, List.append_assoc]

/-- A list with no decomposition around `sep` yields no split. -/
theorem splitFirst_eq_none {sep l : List Char}
    (h : ∀ u v, l ≠ u ++ sep ++ v) : splitFirst sep l = none := by
  cases hs : splitFirst sep l with
  | none => rfl
  | some p =>
    obtain ⟨a, b⟩ := p
    exact absurd (splitFirst_eq_append sep l a b hs) (h a b)

/-- A character of the separator that is absent from the list rules out any
decomposition around the separator. -/
theorem no_occ_of_not_mem (c : Char) {sep l : List Char}
    (hc : c ∈ sep) (hl : c ∉ l) : ∀ u v, l ≠ u ++ sep ++ v := by
  intro u v heq
  apply hl
  rw [heq]
  simp only [List.mem_append]
  exact Or.inl (Or.inr hc)

/-- A list is its reversed-side strip followed by the stripped whitespace. -/
theorem reverse_strip_decomp (r : List Char) :
    r = (r.reverse.dropWhile isPySpace).reverse ++
        (r.reverse.takeWhile isPySpace).reverse := by
  rw [← List.reverse_append, List.takeWhile_append_dropWhile, List.reverse_reverse]

/-- `pyStrip l` is a contiguous piece of `l`. -/
theorem pyStrip_decomp (l : List Char) : ∃ u w, l = u ++ pyStrip l ++ w := by
  refine ⟨l.takeWhile isPySpace,
    ((l.dropWhile isPySpace).reverse.takeWhile isPySpace).reverse, ?_⟩
  calc l = l.takeWhile isPySpace ++ l.dropWhile isPySpace :=
        (List.takeWhile_append_dropWhile isPySpace l).symm
  _ = l.takeWhile isPySpace ++ (pyStrip l ++
        ((l.dropWhile isPySpace).reverse.takeWhile isPySpace).reverse) := by
        simp only [pyStrip]
        exact congrArg _ (reverse_strip_decomp (l.dropWhile isPySpace))
  _ = l.takeWhile isPySpace ++ pyStrip l ++
        ((l.dropWhile isPySpace).reverse.takeWhile isPySpace).reverse := by
        rw [List.append_assoc]

/-- Membership transfers from the stripped list to the original. -/
theorem mem_of_mem_pyStrip {c : Char} {l : List Char}
    (h : c ∈ pyStrip l) : c ∈ l := by
  obtain ⟨u, w, hd⟩ := pyStrip_decomp l
  rw [hd]
  simp only [List.mem_append]
  exact Or.inl (Or.inr h)

/-- Absence of a decomposition transfers from a list to its strip. -/
theorem no_occ_pyStrip {sep l : List Char}
    (h : ∀ u v, l ≠ u ++ sep ++ v) : ∀ u v, pyStrip l ≠ u ++ sep ++ v := by
  intro u v heq
  obtain ⟨a, b, hd⟩ := pyStrip_decomp l
  apply h (a ++ u) (v ++ b)
  rw [hd, heq]
  simp [List.append_assoc]

/-- A single-character separator absent from the list yields no split. -/
theorem splitFirst_single_eq_none {c : Char} {l : List Char}
    (h : c ∉ l) : splitFirst [c] l = none :=
  splitFirst_eq_none (no_occ_of_not_mem c (List.mem_singleton_self c) h)

/-- The markup guard literal is the single character `<`. -/
theorem ltMarker_eq : ltMarker = ['<'] := rfl

/-- Unfolding `extractAnswer` when the answer marker occurs. -/
theorem extractAnswer_some {full pre post : List Char}
    (h : splitFirst ansMarker full = some (pre, post)) :
    extractAnswer full = truncAtLt (truncAtQuestion (pyStrip post)) := by
  simp only [extractAnswer, h]

/-- Unfolding `extractAnswer` when the answer marker is absent. -/
theorem extractAnswer_none {full : List Char}
    (h : splitFirst ansMarker full = none) : extractAnswer full = full := by
  simp only [extractAnswer, h]

/-- Unfolding `truncAtQuestion` when the question marker is absent. -/
theorem truncAtQuestion_none {a : List Char}
    (h : splitFirst qMarker a = none) : truncAtQuestion a = a := by
  simp only [truncAtQuestion, h]

/-- Unfolding `truncAtQuestion` when the question marker occurs. -/
theorem truncAtQuestion_some {a x y : List Char}
    (h : splitFirst qMarker a = some (x, y)) : truncAtQuestion a = pyStrip x := by
  simp only [truncAtQuestion, h]

/-- Unfolding `truncAtLt` when `<` is absent. -/
theorem truncAtLt_none {a : List Char}
    (h : splitFirst ltMarker a = none) : truncAtLt a = a := by
  simp only [truncAtLt, h]

/-- Unfolding `truncAtLt` when `<` occurs. -/
theorem truncAtLt_some {a x y : List Char}
    (h : splitFirst ltMarker a = some (x, y)) : truncAtLt a = pyStrip x := by
  simp only [truncAtLt, h]

/-- C2: for every text containing the answer marker whose content after the
marker's first occurrence contains neither the question marker nor the
character `<`, the extractor returns exactly that content with surrounding
whitespace stripped. -/
theorem c2_extract_clean_content (full pre post : List Char)
    (h1 : splitFirst ansMarker full = some (pre, post))
    (h2 : ∀ u v, post ≠ u ++ qMarker ++ v)
    (h3 : '<' ∉ post) :
    extractAnswer full = pyStrip post := by
  have hq : splitFirst qMarker (pyStrip post) = none :=
    splitFirst_eq_none (no_occ_pyStrip h2)
  have hl : splitFirst ltMarker (pyStrip post) = none := by
    rw [ltMarker_eq]
    exact splitFirst_single_eq_none (fun hm => h3 (mem_of_mem_pyStrip hm))
  rw [extractAnswer_some h1, truncAtQuestion_none hq, truncAtLt_none hl]

theorem c2_extract_clean_content_witness :
    extractAnswer "답변: hello".toList = pyStrip " hello".toList :=
  c2_extract_clean_content _ [] (" hello".toList) (by decide)
    (no_occ_of_not_mem '질' (by decide) (by decide)) (by decide)

/-- C3 counterexample: the claim quantifies over every decomposition
`X 질문: Y` of the post-marker content and predicts trimmed `X`.  On input
`"답변: a<b 질문: c"` the post-marker content `" a<b 질문: c"` has the form
`X 질문: Y` with `X = " a<b "` (trimmed: `"a<b"`), yet the extractor applies
the later `<`-truncation and returns `"a"`, not `"a<b"`. -/
theorem c3_counterexample :
    extractAnswer "답변: a<b 질문: c".toList = "a".toList ∧
    "a".toList ≠ pyStrip " a<b ".toList := by decide

/-- C3 (amended): for every text containing the answer marker whose stripped
post-marker content splits at the first question marker as `X 질문: Y`,
provided `X` contains no `<` character, the extractor returns exactly `X`
trimmed of surrounding whitespace; in particular, on the spec's scenario
input the extracted answer is `"매일 복습하세요."`. -/
theorem c3_extract_before_question :
    (∀ full pre post x y : List Char,
      splitFirst ansMarker full = some (pre, post) →
      splitFirst qMarker (pyStrip post) = some (x, y) →
      '<' ∉ x →
      extractAnswer full = pyStrip x) ∧
    extractAnswer "질문: 오답노트는 어떻게 정리할까요?\n답변: 매일 복습하세요. 질문: 다음은?".toList
      = "매일 복습하세요.".toList := by
  constructor
  · intro full pre post x y h1 h2 h3
    have hl : splitFirst ltMarker (pyStrip x) = none := by
      rw [ltMarker_eq]
      exact splitFirst_single_eq_none (fun hm => h3 (mem_of_mem_pyStrip hm))
    rw [extractAnswer_some h1, truncAtQuestion_some h2, truncAtLt_none hl]
  · decide

theorem c3_extract_before_question_witness :
    extractAnswer "답변: ok 질문: x".toList = pyStrip "ok ".toList :=
  c3_extract_before_question.1 _ [] (" ok 질문: x".toList) ("ok ".toList)
    (" x".toList) (by decide) (by decide) (by decide)

/-- C4: for every text containing the answer marker whose question-marker-
truncated post-marker content splits at the first `<` as `X <tag>Y`, the
extractor returns exactly `X` trimmed of surrounding whitespace; the
`<`-truncation applies to the result of the question-marker truncation. -/
theorem c4_extract_before_markup (full pre post x y : List Char)
    (h1 : splitFirst ansMarker full = some (pre, post))
    (h2 : splitFirst ltMarker (truncAtQuestion (pyStrip post)) = some (x, y)) :
    extractAnswer full = pyStrip x := by
  rw [extractAnswer_some h1, truncAtLt_some h2]

theorem c4_extract_before_markup_witness :
    extractAnswer "답변: hi <b>".toList = pyStrip "hi ".toList :=
  c4_extract_before_markup _ [] (" hi <b>".toList) ("hi ".toList) ("b>".toList)
    (by decide) (by decide)

/-- C5 counterexample: on the marker-free input `"  x  "` the extractor
returns the input unchanged, which differs from the input with surrounding
whitespace stripped, refuting the claim that the result is trimmed. -/
theorem c5_counterexample :
    splitFirst ansMarker "  x  ".toList = none ∧
    extractAnswer "  x  ".toList = "  x  ".toList ∧
    extractAnswer "  x  ".toList ≠ pyStrip "  x  ".toList := by decide

/-- C5 (amended): for every input text that does not contain the answer
marker, the extractor returns the full input text unchanged — no trimming
and no truncation at the question marker or at `<` is applied. -/
theorem c5_no_marker_identity (full : List Char)
    (h : ∀ u v, full ≠ u ++ ansMarker ++ v) :
    extractAnswer full = full :=
  extractAnswer_none (splitFirst_eq_none h)

theorem c5_no_marker_identity_witness :
    extractAnswer "hello".toList = "hello".toList :=
  c5_no_marker_identity _ (no_occ_of_not_mem '답' (by decide) (by decide))

/-- C10: the answer-extraction logic duplicated in app.py's `predict`
handler and in test_local.py's `ask_question` computes the same function on
every full decoded output. -/
theorem c10_extraction_copies_agree :
    ∀ full : List Char, TestLocal.extractAnswer full = extractAnswer full :=
  fun _ => rfl

/-- C1: a POST /predict received while model or tokenizer is still None
yields the 503 service-unavailable error with an empty runtime-call list —
no prompt is built, the tokenizer/model runtime is never invoked, the
outcome is independent of the runtime, and (the handler being pure in the
state) no state changes. -/
theorem c1_predict_not_ready (st : ServerState)
    (runtime : GenCall → Except String (List Char)) (req : QuestionRequest)
    (h : st.model = none ∨ st.tokenizer = none) :
    predict st runtime req = (.httpError 503 "모델이 로드되지 않았습니다", []) := by
  have hcond : (st.model.isNone || st.tokenizer.isNone) = true := by
    rcases h with h | h <;> simp [h]
  simp [predict, hcond]

theorem c1_predict_not_ready_witness :
    predict initialState (fun _ => .ok [])
      { question := "오답노트는 어떻게 정리할까요?", max_tokens := 120,
        temperature := 0.3, top_k := 40, top_p := 0.8,
        repetition_penalty := 1.8 }
      = (.httpError 503 "모델이 로드되지 않았습니다", []) :=
  c1_predict_not_ready _ _ _ (Or.inl rfl)

/-- C6: a request that supplies only the question field builds exactly the
configuration with max_tokens 120, temperature 0.3, top_k 40, top_p 0.8,
repetition_penalty 1.8; every omitted field takes its default and every
supplied field overrides it. -/
theorem c6_request_defaults :
    (∀ q : String, buildRequest { question := q } =
      { question := q, max_tokens := 120, temperature := 0.3, top_k := 40,
        top_p := 0.8, repetition_penalty := 1.8 }) ∧
    (∀ r : RawRequest, r.max_tokens = none → (buildRequest r).max_tokens = 120) ∧
    (∀ r : RawRequest, r.temperature = none → (buildRequest r).temperature = 0.3) ∧
    (∀ r : RawRequest, r.top_k = none → (buildRequest r).top_k = 40) ∧
    (∀ r : RawRequest, r.top_p = none → (buildRequest r).top_p = 0.8) ∧
    (∀ r : RawRequest, r.repetition_penalty = none →
      (buildRequest r).repetition_penalty = 1.8) ∧
    (∀ r v, r.max_tokens = some v → (buildRequest r).max_tokens = v) ∧
    (∀ r v, r.temperature = some v → (buildRequest r).temperature = v) ∧
    (∀ r v, r.top_k = some v → (buildRequest r).top_k = v) ∧
    (∀ r v, r.top_p = some v → (buildRequest r).top_p = v) ∧
    (∀ r v, r.repetition_penalty = some v →
      (buildRequest r).repetition_penalty = v) := by
  refine ⟨fun q => rfl, ?_, ?_, ?_, ?_, ?_, ?_, ?_, ?_, ?_, ?_⟩ <;>
    intros <;> simp [buildRequest, *]

theorem c6_request_defaults_witness :
    buildRequest { question := "오답노트는 어떻게 정리할까요?" } =
      { question := "오답노트는 어떻게 정리할까요?", max_tokens := 120,
        temperature := 0.3, top_k := 40, top_p := 0.8,
        repetition_penalty := 1.8 } ∧
    (buildRequest { question := "q", max_tokens := some 50 }).max_tokens = 50 :=
  ⟨c6_request_defaults.1 "오답노트는 어떻게 정리할까요?",
   c6_request_defaults.2.2.2.2.2.2.1 { question := "q", max_tokens := some 50 }
     50 rfl⟩

/-- C7 counterexample: a request with out-of-range max_tokens = -5 is not
rejected: with the model loaded, the handler invokes the generation runtime
once with max_new_tokens = -5 and returns a 200 response, not a client
error. -/
theorem c7_counterexample :
    predict { model := some 0, tokenizer := some 0, device := "cpu" }
      (fun _ => .ok [])
      { question := "q", max_tokens := -5, temperature := 0.3, top_k := 40,
        top_p := 0.8, repetition_penalty := 1.8 } =
    (.ok { question := "q", answer := [], full_output := [],
           model_path := MODEL_PATH, device := "cpu" },
     [{ prompt := mkPrompt "q", max_new_tokens := -5, temperature := 0.3,
          top_k := 40, top_p := 0.8, repetition_penalty := 1.8,
          do_sample := true, no_repeat_ngram_size := 4 }]) := rfl

/-- C7 (amended): no range validation is performed — for every request
carrying an out-of-range field (non-positive max_tokens, non-positive top_k,
non-positive temperature, or top_p outside (0,1]), the loaded-model handler
invokes the generation runtime exactly once, passing the out-of-range values
through unchanged. -/
theorem c7_no_range_validation (st : ServerState) (m t : Nat)
    (runtime : GenCall → Except String (List Char)) (req : QuestionRequest)
    (hm : st.model = some m) (ht : st.tokenizer = some t)
    (_hbad : req.max_tokens ≤ 0 ∨ req.top_k ≤ 0 ∨ req.temperature ≤ 0 ∨
      req.top_p ≤ 0 ∨ 1 < req.top_p) :
    (predict st runtime req).2 = [genCallOf req] ∧
    (genCallOf req).max_new_tokens = req.max_tokens ∧
    (genCallOf req).temperature = req.temperature ∧
    (genCallOf req).top_k = req.top_k ∧
    (genCallOf req).top_p = req.top_p := by
  refine ⟨?_, rfl, rfl, rfl, rfl⟩
  have hcond : (st.model.isNone || st.tokenizer.isNone) = false := by
    simp [hm, ht]
  simp only [predict, hcond, Bool.false_eq_true, if_false]
  cases runtime (genCallOf req) <;> rfl

theorem c7_no_range_validation_witness :
    (predict { model := some 0, tokenizer := some 0, device := "cpu" }
      (fun _ => .ok [])
      { question := "q", max_tokens := -5, temperature := 0.3, top_k := 40,
        top_p := 0.8, repetition_penalty := 1.8 }).2 =
    [genCallOf { question := "q", max_tokens := -5, temperature := 0.3,
                 top_k := 40, top_p := 0.8, repetition_penalty := 1.8 }] :=
  (c7_no_range_validation _ 0 0 _ _ rfl rfl (Or.inl (by decide))).1

/-- C8: with the model loaded, an exception raised by the
tokenize/generate/decode pipeline turns into a 500 whose detail carries the
exception's message; a successful pipeline yields the complete
AnswerResponse (question, answer, full_output, model_path, device); and
every request ends in exactly one of the two — there is no partial result. -/
theorem c8_generation_errors_to_500 :
    (∀ (st : ServerState) (m t : Nat)
        (runtime : GenCall → Except String (List Char))
        (req : QuestionRequest) (e : String),
      st.model = some m → st.tokenizer = some t →
      runtime (genCallOf req) = .error e →
      (predict st runtime req).1 =
        .httpError 500 ("답변 생성 중 오류 발생: " ++ e)) ∧
    (∀ (st : ServerState) (m t : Nat)
        (runtime : GenCall → Except String (List Char))
        (req : QuestionRequest) (full : List Char),
      st.model = some m → st.tokenizer = some t →
      runtime (genCallOf req) = .ok full →
      (predict st runtime req).1 =
        .ok { question := req.question, answer := extractAnswer full,
              full_output := full, model_path := MODEL_PATH,
              device := st.device }) ∧
    (∀ (st : ServerState) (runtime : GenCall → Except String (List Char))
        (req : QuestionRequest),
      (∃ r, (predict st runtime req).1 = .ok r) ∨
      (∃ s d, (predict st runtime req).1 = .httpError s d)) := by
  refine ⟨?_, ?_, ?_⟩
  · intro st m t runtime req e hm ht hr
    have hcond : (st.model.isNone || st.tokenizer.isNone) = false := by
      simp [hm, ht]
    simp [predict, hcond, hr]
  · intro st m t runtime req full hm ht hr
    have hcond : (st.model.isNone || st.tokenizer.isNone) = false := by
      simp [hm, ht]
    simp [predict, hcond, hr]
  · intro st runtime req
    by_cases hcond : (st.model.isNone || st.tokenizer.isNone) = true
    · right
      exact ⟨503, "모델이 로드되지 않았습니다", by simp [predict, hcond]⟩
    · rw [Bool.not_eq_true] at hcond
      cases hr : runtime (genCallOf req) with
      | ok full =>
        left
        refine ⟨{ question := req.question, answer := extractAnswer full,
                  full_output := full, model_path := MODEL_PATH,
                  device := st.device }, ?_⟩
        simp [predict, hcond, hr]
      | error e =>
        right
        refine ⟨500, "답변 생성 중 오류 발생: " ++ e, ?_⟩
        simp [predict, hcond, hr]

theorem c8_generation_errors_to_500_witness :
    (predict { model := some 0, tokenizer := some 0, device := "cpu" }
      (fun _ => .error "boom")
      { question := "q", max_tokens := 120, temperature := 0.3, top_k := 40,
        top_p := 0.8, repetition_penalty := 1.8 }).1 =
    .httpError 500 ("답변 생성 중 오류 발생: " ++ "boom") :=
  c8_generation_errors_to_500.1 _ 0 0 _ _ "boom" rfl rfl rfl

/-- C9: /predict's readiness check is strictly stronger than /health's
model_loaded flag: whenever /predict passes its readiness check, /health
reports status "healthy" with model_loaded = true; and the converse fails in
the state reached when the tokenizer load raises after the global model was
assigned — there /health still reports "healthy"/model_loaded = true while
every /predict request gets the 503 with no runtime call. -/
theorem c9_health_weaker_than_predict :
    (∀ st : ServerState, predictReady st = true →
      (health_check st).model_loaded = true ∧
      (health_check st).status = "healthy") ∧
    (predictReady (load_model initialState (.failAfterModel 0 "tok")).1 = false ∧
     (health_check (load_model initialState (.failAfterModel 0 "tok")).1).model_loaded
       = true ∧
     (health_check (load_model initialState (.failAfterModel 0 "tok")).1).status
       = "healthy" ∧
     ∀ (runtime : GenCall → Except String (List Char)) (req : QuestionRequest),
       predict (load_model initialState (.failAfterModel 0 "tok")).1 runtime req
         = (.httpError 503 "모델이 로드되지 않았습니다", [])) := by
  constructor
  · intro st h
    have hm : st.model.isSome = true := by
      cases hsm : st.model with
      | none => simp [predictReady, hsm] at h
      | some x => rfl
    refine ⟨?_, ?_⟩ <;> simp [health_check, hm]
  · refine ⟨rfl, rfl, rfl, fun runtime req => rfl⟩

theorem c9_health_weaker_than_predict_witness :
    (health_check { model := some 0, tokenizer := some 0, device := "cpu" }).model_loaded
      = true ∧
    (health_check { model := some 0, tokenizer := some 0, device := "cpu" }).status
      = "healthy" :=
  c9_health_weaker_than_predict.1 _ rfl
